import Mathlib

/-
Verification development for the dispute-resolution ("AI court") web app.

The definitions below are a shallow embedding of the program's core:
  * the data model of src/types.ts (the revision that includes the DEBATE
    stage, DisputePoint records and the lastAnalyzedHash fingerprint field);
  * the persistence layer MockDb of src/services/mockDb.ts and its
    cloud-synced revision (src/unnamed/part_001): createCase, updateCase,
    joinCase, syncCaseFromCloud;
  * the workflow handlers of src/App.tsx (CaseManager and the step
    components) and src/VerdictSection.tsx, modelled as the patch each
    handler submits through CaseManager.update;
  * the AI-gateway helpers of src/services/geminiService.ts
    (src/unnamed/part_000, final revision): retryWithBackoff, callGemini,
    and the response-validator passes of generateVerdict
    (responsibilitySplit and penaltyTasks sanitization).

JavaScript numbers are modelled as exact rationals, machine timestamps as
naturals passed in explicitly, and each fallible/asynchronous AI call as an
explicit (Except error) argument so that the surrounding control flow can be
stated and proved.
-/

namespace Liqingai

instance exceptDecEq {ε α : Type} [DecidableEq ε] [DecidableEq α] :
    DecidableEq (Except ε α) := fun x y =>
  match x, y with
  | Except.ok a, Except.ok b =>
      if h : a = b then Decidable.isTrue (h ▸ rfl)
      else Decidable.isFalse fun hh => h (Except.ok.inj hh)
  | Except.error a, Except.error b =>
      if h : a = b then Decidable.isTrue (h ▸ rfl)
      else Decidable.isFalse fun hh => h (Except.error.inj hh)
  | Except.ok _, Except.error _ => Decidable.isFalse Except.noConfusion
  | Except.error _, Except.ok _ => Decidable.isFalse Except.noConfusion

/-! ## Data model (src/types.ts, revision with DEBATE) -/

inductive CaseStatus where
  | DRAFTING
  | PLAINTIFF_EVIDENCE
  | DEFENSE_PENDING
  | CROSS_EXAMINATION
  | DEBATE
  | ADJUDICATING
  | CLOSED
  | CANCELLED
deriving DecidableEq

inductive UserRole where
  | PLAINTIFF
  | DEFENDANT
  | SPECTATOR
deriving DecidableEq

inductive JudgePersona where
  | BORDER_COLLIE
  | CAT
deriving DecidableEq

inductive EvidenceType where
  | TEXT
  | IMAGE
  | AUDIO
deriving DecidableEq

structure EvidenceItem where
  id : String
  type : EvidenceType
  content : String
  description : Option String
  isContested : Bool
  submittedBy : UserRole
  aiAnalysis : Option String := none
deriving DecidableEq

structure DisputePoint where
  id : String
  title : String
  description : String
  plaintiffArg : Option String := none
  defendantArg : Option String := none
deriving DecidableEq

structure DisputeAnalysis where
  title : String
  analysis : String
deriving DecidableEq

/-- Assignee values of a penalty task: the string union 'PLAINTIFF' | 'DEFENDANT'. -/
inductive Party where
  | PLAINTIFF
  | DEFENDANT
deriving DecidableEq

structure PenaltyTask where
  assignee : Party
  content : String
deriving DecidableEq

structure ResponsibilitySplit where
  plaintiff : ℚ
  defendant : ℚ
deriving DecidableEq

structure Verdict where
  summary : String
  facts : List String
  responsibilitySplit : ResponsibilitySplit
  reasoning : String
  finalJudgment : String
  penaltyTasks : List PenaltyTask
  tone : String
  disputeAnalyses : Option (List DisputeAnalysis) := none
deriving DecidableEq

structure CaseData where
  id : String
  shareCode : String
  createdDate : Nat
  lastUpdateDate : Nat
  plaintiffId : String
  defendantId : Option String
  title : Option String
  category : String
  description : String
  plaintiffSummary : Option String
  demands : String
  evidence : List EvidenceItem
  defenseStatement : String
  defenseSummary : Option String
  defendantEvidence : List EvidenceItem
  plaintiffRebuttal : String
  plaintiffRebuttalEvidence : List EvidenceItem
  defendantRebuttal : String
  defendantRebuttalEvidence : List EvidenceItem
  disputePoints : List DisputePoint
  lastAnalyzedHash : Option String
  judgePersona : JudgePersona
  status : CaseStatus
  verdict : Option Verdict
deriving DecidableEq

/-! ## Patches (Partial<CaseData>) and the spread-merge of MockDb.updateCase

A `Patch` records, for each field a handler ever writes, whether the patch
carries that field.  For the fields whose TypeScript type is optional the
carried value is itself an `Option`, because a handler can write an explicit
`undefined` (e.g. `defenseSummary: undefined` when resetting a default
judgment) and the object spread `{...old, ...updates}` then overwrites the
field with `undefined`.  The app never patches `plaintiffId`, `id`,
`shareCode` or `createdDate`, so they are omitted. -/

structure Patch where
  description : Option String := none
  demands : Option String := none
  status : Option CaseStatus := none
  title : Option (Option String) := none
  plaintiffSummary : Option (Option String) := none
  defenseStatement : Option String := none
  defenseSummary : Option (Option String) := none
  plaintiffRebuttal : Option String := none
  defendantRebuttal : Option String := none
  evidence : Option (List EvidenceItem) := none
  defendantEvidence : Option (List EvidenceItem) := none
  plaintiffRebuttalEvidence : Option (List EvidenceItem) := none
  defendantRebuttalEvidence : Option (List EvidenceItem) := none
  disputePoints : Option (List DisputePoint) := none
  lastAnalyzedHash : Option (Option String) := none
  verdict : Option (Option Verdict) := none
  judgePersona : Option JudgePersona := none
  defendantId : Option (Option String) := none
deriving DecidableEq

/-- The local merge of MockDb.updateCase:
`{ ...db[id], ...updates, lastUpdateDate: Date.now() }`. -/
def mergeCase (c : CaseData) (p : Patch) (now : Nat) : CaseData :=
  { id := c.id
    shareCode := c.shareCode
    createdDate := c.createdDate
    lastUpdateDate := now
    plaintiffId := c.plaintiffId
    defendantId := p.defendantId.getD c.defendantId
    title := p.title.getD c.title
    category := c.category
    description := p.description.getD c.description
    plaintiffSummary := p.plaintiffSummary.getD c.plaintiffSummary
    demands := p.demands.getD c.demands
    evidence := p.evidence.getD c.evidence
    defenseStatement := p.defenseStatement.getD c.defenseStatement
    defenseSummary := p.defenseSummary.getD c.defenseSummary
    defendantEvidence := p.defendantEvidence.getD c.defendantEvidence
    plaintiffRebuttal := p.plaintiffRebuttal.getD c.plaintiffRebuttal
    plaintiffRebuttalEvidence := p.plaintiffRebuttalEvidence.getD c.plaintiffRebuttalEvidence
    defendantRebuttal := p.defendantRebuttal.getD c.defendantRebuttal
    defendantRebuttalEvidence := p.defendantRebuttalEvidence.getD c.defendantRebuttalEvidence
    disputePoints := p.disputePoints.getD c.disputePoints
    lastAnalyzedHash := p.lastAnalyzedHash.getD c.lastAnalyzedHash
    judgePersona := p.judgePersona.getD c.judgePersona
    status := p.status.getD c.status
    verdict := p.verdict.getD c.verdict }

/-! ## MockDb (src/services/mockDb.ts and src/unnamed/part_001)

The localStorage object `db` is modelled as an association list keyed by the
case id; `Object.values(db)` is the list of second components. -/

abbrev Db := List (String × CaseData)

def dbGet (db : Db) (id : String) : Option CaseData :=
  (db.find? fun kv => kv.1 == id).map fun kv => kv.2

def dbSet (db : Db) (id : String) (c : CaseData) : Db :=
  if db.any fun kv => kv.1 == id then
    db.map fun kv => if kv.1 == id then (id, c) else kv
  else
    db ++ [(id, c)]

/-- MockDb.createCase: the freshly created record (the random share code and
the Date.now() id/timestamps are passed in). -/
def createCase (id shareCode : String) (now : Nat) (plaintiffId : String) : CaseData :=
  { id := id
    shareCode := shareCode
    createdDate := now
    lastUpdateDate := now
    plaintiffId := plaintiffId
    defendantId := none
    title := some ""
    category := "亲密关系纠纷"
    description := ""
    plaintiffSummary := some ""
    demands := ""
    evidence := []
    defenseStatement := ""
    defenseSummary := some ""
    defendantEvidence := []
    plaintiffRebuttal := ""
    plaintiffRebuttalEvidence := []
    defendantRebuttal := ""
    defendantRebuttalEvidence := []
    disputePoints := []
    lastAnalyzedHash := none
    judgePersona := JudgePersona.BORDER_COLLIE
    status := CaseStatus.DRAFTING
    verdict := none }

/-- MockDb.updateCase: `if (!db[id]) throw new Error("Case not found")`
followed by the optimistic spread-merge and save.  It takes no actor
argument and performs no permission check; the asynchronous Supabase write
mirrors the same patch and cannot reject it either. -/
def updateCase (db : Db) (id : String) (updates : Patch) (now : Nat) :
    Except String (CaseData × Db) :=
  match dbGet db id with
  | none => Except.error "Case not found"
  | some c =>
      let updatedCase := mergeCase c updates now
      Except.ok (updatedCase, dbSet db id updatedCase)

/-- JavaScript truthiness of an optional string (undefined and "" are falsy). -/
def truthyStr : Option String → Bool
  | some s => s != ""
  | none => false

structure JoinResult where
  success : Bool
  caseId : Option String := none
  error : Option String := none
deriving DecidableEq

def findCaseByCode (db : Db) (code : String) : Option CaseData :=
  (db.map fun kv => kv.2).find? fun c => c.shareCode == code

/-- MockDb.joinCase (local revision; the cloud revision in part_001 runs the
same three identity checks against the fetched row before writing
defendant_id).  Lookup is by share code over Object.values(db). -/
def joinCase (db : Db) (code : String) (defendantId : String) (now : Nat) :
    JoinResult × Db :=
  match findCaseByCode db code with
  | none => ({ success := false, error := some "无效的案件代码" }, db)
  | some caseItem =>
      if caseItem.plaintiffId == defendantId then
        ({ success := false, error := some "您是原告，无法作为被告加入" }, db)
      else if truthyStr caseItem.defendantId && caseItem.defendantId != some defendantId then
        ({ success := false, error := some "该案件已有被告" }, db)
      else
        let updated := { caseItem with defendantId := some defendantId, lastUpdateDate := now }
        ({ success := true, caseId := some caseItem.id }, dbSet db caseItem.id updated)

/-- CaseManager's role computation (App.tsx):
`isPlaintiff = user === data.plaintiffId; isDefendant = user === data.defendantId`. -/
def roleFor (user : String) (data : CaseData) : UserRole :=
  if user == data.plaintiffId then UserRole.PLAINTIFF
  else if some user == data.defendantId then UserRole.DEFENDANT
  else UserRole.SPECTATOR

/-! ## String helpers (substring test, JSON.stringify on strings) -/

/-- Tests whether `n` matches the beginning of `h` character by character. -/
def matchesAt (n h : List Char) : Bool :=
  match n, h with
  | [], _ => true
  | _ :: _, [] => false
  | a :: n2, b :: h2 => a == b && matchesAt n2 h2

def containsFrom (n h : List Char) : Bool :=
  match h with
  | [] => matchesAt n []
  | _ :: h2 => matchesAt n h || containsFrom n h2

/-- JavaScript `hay.includes(needle)`. -/
def strContains (hay needle : String) : Bool :=
  containsFrom needle.data hay.data

/-- String.prototype.toUpperCase, applied character by character. -/
def toUpperStr (s : String) : String :=
  String.mk (s.data.map Char.toUpper)

def hexDigitChar (n : Nat) : Char :=
  if n < 10 then Char.ofNat (48 + n) else Char.ofNat (87 + n)

/-- One character of JSON.stringify string output. -/
def jsonEscapeChar (ch : Char) : String :=
  if ch = '"' then "\\\""
  else if ch = '\\' then "\\\\"
  else if ch = '\n' then "\\n"
  else if ch = '\r' then "\\r"
  else if ch = '\t' then "\\t"
  else if ch = Char.ofNat 8 then "\\b"
  else if ch = Char.ofNat 12 then "\\f"
  else if ch.toNat < 32 then
    "\\u00" ++ String.singleton (hexDigitChar (ch.toNat / 16)) ++
      String.singleton (hexDigitChar (ch.toNat % 16))
  else String.singleton ch

/-- JSON.stringify of a string value. -/
def jsonQuote (s : String) : String :=
  "\"" ++ String.join (s.data.map jsonEscapeChar) ++ "\""

def boolString (b : Bool) : String := if b then "true" else "false"

/-- A template literal `${e.description}` where description is optional. -/
def descString : Option String → String
  | some s => s
  | none => "undefined"

/-! ## VerdictSection (src/VerdictSection.tsx): content fingerprint and
the finish-cross-examination handler -/

/-- The per-collection part of computeContentHash:
`items.map(e => `${e.id}-${e.description}-${e.isContested}`).join('|')`. -/
def evFingerprint (items : List EvidenceItem) : String :=
  String.intercalate "|"
    (items.map fun e => e.id ++ "-" ++ descString e.description ++ "-" ++ boolString e.isContested)

/-- computeContentHash: JSON.stringify of the literal
`{desc, defStmt, plReb, defReb, ev, defEv}` (object keys appear in insertion
order).  `defReb` is `data.defendantRebuttal || ""`, which equals the field
itself since the field is a plain string. -/
def computeContentHash (data : CaseData) : String :=
  "\x7b\"desc\":" ++ jsonQuote data.description ++
  ",\"defStmt\":" ++ jsonQuote data.defenseStatement ++
  ",\"plReb\":" ++ jsonQuote data.plaintiffRebuttal ++
  ",\"defReb\":" ++ jsonQuote data.defendantRebuttal ++
  ",\"ev\":" ++ jsonQuote (evFingerprint data.evidence) ++
  ",\"defEv\":" ++ jsonQuote (evFingerprint data.defendantEvidence) ++ "\x7d"

/-! ## The patches each workflow handler submits (App.tsx revision with the
DEBATE stage, plus VerdictSection.tsx) -/

def filingSubmitPatch (desc demands : String) : Patch :=
  { description := some desc, demands := some demands,
    status := some CaseStatus.PLAINTIFF_EVIDENCE }

/-- FilingForm background patch: `{ title: title || undefined, plaintiffSummary: summary }`. -/
def filingBackgroundPatch (title summary : String) : Patch :=
  { title := some (if title == "" then none else some title),
    plaintiffSummary := some (some summary) }

def plaintiffEvidencePatch (l : List EvidenceItem) : Patch := { evidence := some l }

def plaintiffEvidenceSubmitPatch : Patch := { status := some CaseStatus.DEFENSE_PENDING }

def defenseSubmitPatch (stmt : String) : Patch :=
  { defenseStatement := some stmt, status := some CaseStatus.CROSS_EXAMINATION }

def defenseSummaryPatch (summary : String) : Patch :=
  { defenseSummary := some (some summary) }

def defendantEvidencePatch (l : List EvidenceItem) : Patch := { defendantEvidence := some l }

def plaintiffRebuttalPatch (v : String) : Patch := { plaintiffRebuttal := some v }

def defendantRebuttalPatch (v : String) : Patch := { defendantRebuttal := some v }

/-- The skip path of handleFinishCrossExam: `onSubmit({ status: CaseStatus.DEBATE })`. -/
def crossExamSkipPatch : Patch := { status := some CaseStatus.DEBATE }

/-- The generation path of handleFinishCrossExam. -/
def crossExamGenPatch (points : List DisputePoint) (hash : String) : Patch :=
  { status := some CaseStatus.DEBATE, disputePoints := some points,
    lastAnalyzedHash := some (some hash) }

def debateArgsPatch (points : List DisputePoint) : Patch := { disputePoints := some points }

def debateProceedPatch : Patch := { status := some CaseStatus.ADJUDICATING }

/-- AdjudicationStep.handleJudgement success patch:
`{ verdict, judgePersona: persona, status: CaseStatus.CLOSED }`. -/
def judgementPatch (v : Verdict) (persona : JudgePersona) : Patch :=
  { verdict := some (some v), judgePersona := some persona,
    status := some CaseStatus.CLOSED }

/-- The non-participation sentinel written into defenseStatement. -/
def absentSentence : String := "（被告缺席，放弃答辩）"

/-- The non-participation text written into defenseSummary. -/
def absentSummary : String := "被告未出庭应诉，视为放弃答辩权利。"

/-- CaseManager.handleDefaultJudgment patch. -/
def defaultJudgmentPatch : Patch :=
  { defenseStatement := some absentSentence,
    defenseSummary := some (some absentSummary),
    status := some CaseStatus.ADJUDICATING,
    disputePoints := some [] }

/-- The reset patch shared by handleStepBack (from ADJUDICATING after a
default judgment) and onAppeal (from CLOSED after a default judgment):
`{ status: DEFENSE_PENDING, defenseStatement: "", defenseSummary: undefined }`. -/
def clearDefaultPatch : Patch :=
  { status := some CaseStatus.DEFENSE_PENDING,
    defenseStatement := some "",
    defenseSummary := some none }

/-- The onAppeal handler of the CLOSED view: a status-only patch unless the
case had been decided by default judgment. -/
def appealPatch (data : CaseData) : Patch :=
  if data.defenseStatement == absentSentence then clearDefaultPatch
  else { status := some CaseStatus.DEBATE }

/-! ## handleFinishCrossExam and handleJudgement

The one AI call of each handler is passed in as an `Except` value: what
`GeminiService.analyzeDisputeFocus` / `GeminiService.generateVerdict`
resolved to (the services throw on every failure, so an `error` value is the
raised exception observed in the handler's catch branch). -/

inductive CrossExamOutcome where
  | skip (patch : Patch)
  | generated (patch : Patch)
  | failed (errorMsg : String)
deriving DecidableEq

/-- Whether the outcome involved an AI inference call (the skip branch
returns before `GeminiService.analyzeDisputeFocus` is invoked). -/
def invokesAI : CrossExamOutcome → Bool
  | CrossExamOutcome.skip _ => false
  | CrossExamOutcome.generated _ => true
  | CrossExamOutcome.failed _ => true

/-- The patch the outcome submits, if any (the failed branch only records
the error message for display and submits nothing). -/
def outcomePatch : CrossExamOutcome → Option Patch
  | CrossExamOutcome.skip p => some p
  | CrossExamOutcome.generated p => some p
  | CrossExamOutcome.failed _ => none

def applyOutcome (data : CaseData) (p : Option Patch) (now : Nat) : CaseData :=
  match p with
  | some patch => mergeCase data patch now
  | none => data

/-- VerdictSection.handleFinishCrossExam.  The guard is
`hasDisputePoints && data.lastAnalyzedHash === currentHash`. -/
def handleFinishCrossExam (data : CaseData)
    (ai : Except String (List DisputePoint)) : CrossExamOutcome :=
  let currentHash := computeContentHash data
  if data.disputePoints ≠ [] ∧ data.lastAnalyzedHash = some currentHash then
    CrossExamOutcome.skip crossExamSkipPatch
  else
    match ai with
    | Except.ok points => CrossExamOutcome.generated (crossExamGenPatch points currentHash)
    | Except.error e => CrossExamOutcome.failed e

/-- The positional arguments AdjudicationStep.handleJudgement passes to
GeminiService.generateVerdict (App.tsx lines 1090-1096). -/
structure VerdictArgs where
  category : String
  plaintiffDesc : String
  plaintiffDemands : String
  defenseDesc : String
  plaintiffEvidence : List EvidenceItem
  defendantEvidence : List EvidenceItem
  plaintiffRebuttal : String
  plaintiffRebuttalEvidence : List EvidenceItem
  defendantRebuttal : String
  defendantRebuttalEvidence : List EvidenceItem
  disputePoints : List DisputePoint
  persona : JudgePersona
deriving DecidableEq

def handleJudgementArgs (data : CaseData) (persona : JudgePersona) : VerdictArgs :=
  { category := data.category
    plaintiffDesc := data.description
    plaintiffDemands := data.demands
    defenseDesc := data.defenseStatement
    plaintiffEvidence := data.evidence
    defendantEvidence := data.defendantEvidence
    plaintiffRebuttal := data.plaintiffRebuttal
    plaintiffRebuttalEvidence := data.plaintiffRebuttalEvidence
    defendantRebuttal := data.defendantRebuttal
    defendantRebuttalEvidence := data.defendantRebuttalEvidence
    disputePoints := data.disputePoints
    persona := persona }

/-- AdjudicationStep.handleJudgement: on success it submits the
verdict-and-close patch, in its catch branch it submits nothing (the alert
and the progress reset touch no case field). -/
def handleJudgement (persona : JudgePersona) (ai : Except String Verdict) : Option Patch :=
  match ai with
  | Except.ok v => some (judgementPatch v persona)
  | Except.error _ => none

/-! ## Reachable case states

One constructor per patch-submitting call site of the single-session
workflow (App.tsx CaseManager revision with the DEBATE stage, plus
VerdictSection.tsx), each guarded by the stage in which CaseManager renders
the component that owns the call site, plus the defendant binding performed
by MockDb.joinCase. -/

inductive Reachable : CaseData → Prop where
  | created (id code : String) (now : Nat) (pid : String) :
      Reachable (createCase id code now pid)
  | filingSubmit {c : CaseData} (h : Reachable c)
      (hs : c.status = CaseStatus.DRAFTING) (desc demands : String) (now : Nat) :
      Reachable (mergeCase c (filingSubmitPatch desc demands) now)
  | filingBackground {c : CaseData} (h : Reachable c)
      (title summary : String) (now : Nat) :
      Reachable (mergeCase c (filingBackgroundPatch title summary) now)
  | plaintiffEvidenceEdit {c : CaseData} (h : Reachable c)
      (hs : c.status = CaseStatus.PLAINTIFF_EVIDENCE) (l : List EvidenceItem) (now : Nat) :
      Reachable (mergeCase c (plaintiffEvidencePatch l) now)
  | plaintiffEvidenceSubmit {c : CaseData} (h : Reachable c)
      (hs : c.status = CaseStatus.PLAINTIFF_EVIDENCE) (now : Nat) :
      Reachable (mergeCase c plaintiffEvidenceSubmitPatch now)
  | defenseSubmit {c : CaseData} (h : Reachable c)
      (hs : c.status = CaseStatus.DEFENSE_PENDING) (stmt : String) (now : Nat) :
      Reachable (mergeCase c (defenseSubmitPatch stmt) now)
  | defenseSummaryBackground {c : CaseData} (h : Reachable c)
      (summary : String) (now : Nat) :
      Reachable (mergeCase c (defenseSummaryPatch summary) now)
  | defendantEvidenceEdit {c : CaseData} (h : Reachable c)
      (hs : c.status = CaseStatus.DEFENSE_PENDING) (l : List EvidenceItem) (now : Nat) :
      Reachable (mergeCase c (defendantEvidencePatch l) now)
  | crossContestPlaintiffEv {c : CaseData} (h : Reachable c)
      (hs : c.status = CaseStatus.CROSS_EXAMINATION) (l : List EvidenceItem) (now : Nat) :
      Reachable (mergeCase c (plaintiffEvidencePatch l) now)
  | crossContestDefendantEv {c : CaseData} (h : Reachable c)
      (hs : c.status = CaseStatus.CROSS_EXAMINATION) (l : List EvidenceItem) (now : Nat) :
      Reachable (mergeCase c (defendantEvidencePatch l) now)
  | crossRebuttalPlaintiff {c : CaseData} (h : Reachable c)
      (hs : c.status = CaseStatus.CROSS_EXAMINATION) (v : String) (now : Nat) :
      Reachable (mergeCase c (plaintiffRebuttalPatch v) now)
  | crossRebuttalDefendant {c : CaseData} (h : Reachable c)
      (hs : c.status = CaseStatus.CROSS_EXAMINATION) (v : String) (now : Nat) :
      Reachable (mergeCase c (defendantRebuttalPatch v) now)
  | crossExamSkip {c : CaseData} (h : Reachable c)
      (hs : c.status = CaseStatus.CROSS_EXAMINATION)
      (hskip : c.disputePoints ≠ [] ∧ c.lastAnalyzedHash = some (computeContentHash c))
      (now : Nat) :
      Reachable (mergeCase c crossExamSkipPatch now)
  | crossExamGenerate {c : CaseData} (h : Reachable c)
      (hs : c.status = CaseStatus.CROSS_EXAMINATION)
      (points : List DisputePoint) (now : Nat) :
      Reachable (mergeCase c (crossExamGenPatch points (computeContentHash c)) now)
  | debateArgs {c : CaseData} (h : Reachable c)
      (hs : c.status = CaseStatus.DEBATE) (points : List DisputePoint) (now : Nat) :
      Reachable (mergeCase c (debateArgsPatch points) now)
  | debateProceed {c : CaseData} (h : Reachable c)
      (hs : c.status = CaseStatus.DEBATE) (now : Nat) :
      Reachable (mergeCase c debateProceedPatch now)
  | judgement {c : CaseData} (h : Reachable c)
      (hs : c.status = CaseStatus.ADJUDICATING) (v : Verdict) (persona : JudgePersona)
      (now : Nat) :
      Reachable (mergeCase c (judgementPatch v persona) now)
  | defaultJudgment {c : CaseData} (h : Reachable c)
      (hs : c.status = CaseStatus.DEFENSE_PENDING) (now : Nat) :
      Reachable (mergeCase c defaultJudgmentPatch now)
  | stepBackToDrafting {c : CaseData} (h : Reachable c)
      (hs : c.status = CaseStatus.PLAINTIFF_EVIDENCE) (now : Nat) :
      Reachable (mergeCase c { status := some CaseStatus.DRAFTING } now)
  | stepBackToEvidence {c : CaseData} (h : Reachable c)
      (hs : c.status = CaseStatus.DEFENSE_PENDING) (now : Nat) :
      Reachable (mergeCase c { status := some CaseStatus.PLAINTIFF_EVIDENCE } now)
  | stepBackToDefense {c : CaseData} (h : Reachable c)
      (hs : c.status = CaseStatus.CROSS_EXAMINATION) (now : Nat) :
      Reachable (mergeCase c { status := some CaseStatus.DEFENSE_PENDING } now)
  | stepBackToCross {c : CaseData} (h : Reachable c)
      (hs : c.status = CaseStatus.DEBATE) (now : Nat) :
      Reachable (mergeCase c { status := some CaseStatus.CROSS_EXAMINATION } now)
  | stepBackDefaulted {c : CaseData} (h : Reachable c)
      (hs : c.status = CaseStatus.ADJUDICATING)
      (hd : c.defenseStatement = absentSentence) (now : Nat) :
      Reachable (mergeCase c clearDefaultPatch now)
  | stepBackToDebate {c : CaseData} (h : Reachable c)
      (hs : c.status = CaseStatus.ADJUDICATING)
      (hd : c.defenseStatement ≠ absentSentence) (now : Nat) :
      Reachable (mergeCase c { status := some CaseStatus.DEBATE } now)
  | appealDefaulted {c : CaseData} (h : Reachable c)
      (hs : c.status = CaseStatus.CLOSED)
      (hd : c.defenseStatement = absentSentence) (now : Nat) :
      Reachable (mergeCase c clearDefaultPatch now)
  | appealNormal {c : CaseData} (h : Reachable c)
      (hs : c.status = CaseStatus.CLOSED)
      (hd : c.defenseStatement ≠ absentSentence) (now : Nat) :
      Reachable (mergeCase c { status := some CaseStatus.DEBATE } now)
  | join {c : CaseData} (h : Reachable c) (d : String) (now : Nat)
      (hne : c.plaintiffId ≠ d)
      (hfree : truthyStr c.defendantId = false ∨ c.defendantId = some d) :
      Reachable { c with defendantId := some d, lastUpdateDate := now }

/-! ## Persistence sync (MockDb.syncCaseFromCloud, src/unnamed/part_001) -/

/-- A row of the remote `cases` table as returned by `select('*')`; every
column the mapping reads can be null/missing except the key columns. -/
structure RemoteCase where
  id : String
  share_code : String
  created_at : Nat
  plaintiff_id : String
  defendant_id : Option String
  category : String
  description : Option String
  title : Option String
  plaintiff_summary : Option String
  demands : Option String
  evidence : Option (List EvidenceItem)
  defense_statement : Option String
  defense_summary : Option String
  defendant_evidence : Option (List EvidenceItem)
  plaintiff_rebuttal : Option String
  plaintiff_rebuttal_evidence : Option (List EvidenceItem)
  defendant_rebuttal : Option String
  defendant_rebuttal_evidence : Option (List EvidenceItem)
  dispute_points : Option (List DisputePoint)
  judge_persona : Option JudgePersona
  status : CaseStatus
  verdict : Option Verdict
deriving DecidableEq

/-- The statusOrder table of syncCaseFromCloud.  The source then applies
`|| 0`, which maps only DRAFTING's 0 back to 0, so the table is used as is. -/
def statusOrder : CaseStatus → Nat
  | CaseStatus.DRAFTING => 0
  | CaseStatus.PLAINTIFF_EVIDENCE => 1
  | CaseStatus.DEFENSE_PENDING => 2
  | CaseStatus.CROSS_EXAMINATION => 3
  | CaseStatus.DEBATE => 4
  | CaseStatus.ADJUDICATING => 5
  | CaseStatus.CLOSED => 6
  | CaseStatus.CANCELLED => 99

/-- The snake_case-to-camelCase mapping syncCaseFromCloud performs on a
fetched row.  Note that `lastAnalyzedHash` is not among the mapped fields,
so the synced local copy carries no fingerprint. -/
def remoteToLocalCase (remoteCase : RemoteCase) (now : Nat) : CaseData :=
  { id := remoteCase.id
    shareCode := remoteCase.share_code
    createdDate := remoteCase.created_at
    lastUpdateDate := now
    plaintiffId := remoteCase.plaintiff_id
    defendantId := remoteCase.defendant_id
    category := remoteCase.category
    description := remoteCase.description.getD ""
    title := remoteCase.title
    plaintiffSummary := remoteCase.plaintiff_summary
    demands := remoteCase.demands.getD ""
    evidence := remoteCase.evidence.getD []
    defenseStatement := remoteCase.defense_statement.getD ""
    defenseSummary := remoteCase.defense_summary
    defendantEvidence := remoteCase.defendant_evidence.getD []
    plaintiffRebuttal := remoteCase.plaintiff_rebuttal.getD ""
    plaintiffRebuttalEvidence := remoteCase.plaintiff_rebuttal_evidence.getD []
    defendantRebuttal := remoteCase.defendant_rebuttal.getD ""
    defendantRebuttalEvidence := remoteCase.defendant_rebuttal_evidence.getD []
    disputePoints := remoteCase.dispute_points.getD []
    lastAnalyzedHash := none
    judgePersona := remoteCase.judge_persona.getD JudgePersona.BORDER_COLLIE
    status := remoteCase.status
    verdict := remoteCase.verdict }

/-- MockDb.syncCaseFromCloud with the remote fetch passed in (`none` models
both a fetch error and a thrown exception: the catch and error branches fall
back to the local copy).  `local.status` is an enum string, hence always
truthy, so the conflict-resolution block runs whenever a local copy exists. -/
def syncCaseFromCloud (db : Db) (caseId : String) (fetch : Option RemoteCase)
    (now : Nat) : Option CaseData × Db :=
  match fetch with
  | none => (dbGet db caseId, db)
  | some remoteCase =>
      let stale : Option CaseData :=
        match dbGet db caseId with
        | some loc =>
            if statusOrder loc.status > statusOrder remoteCase.status ∧
                remoteCase.status = CaseStatus.CROSS_EXAMINATION then
              some loc
            else none
        | none => none
      match stale with
      | some loc => (some loc, db)
      | none =>
          let localCase := remoteToLocalCase remoteCase now
          (some localCase, dbSet db localCase.id localCase)

/-! ## AI inference gateway (src/unnamed/part_000, final revision):
retryWithBackoff and callGemini -/

/-- The shape of a JavaScript error as the retry helper inspects it:
`error?.status`, `error?.code` and `error?.message`. -/
structure JsError where
  status : Option Int
  code : Option Int
  message : String
deriving DecidableEq

/-- JavaScript `a || b` on optional numbers (0 and undefined are falsy). -/
def jsOrNum (a b : Option Int) : Option Int :=
  match a with
  | some v => if v = 0 then b else some v
  | none => b

/-- The guard `message.startsWith('{') || message.includes('{"error"')`. -/
def msgLooksJson (m : String) : Bool :=
  matchesAt "\x7b".data m.data || strContains m "\x7b\"error\""

def digitsVal (ds : List Char) : Nat :=
  ds.foldl (fun acc c => acc * 10 + (c.toNat - 48)) 0

/-- Models the JSON re-parse of the error message
(`JSON.parse(message.match(/\x7b.*\x7d/)[0])` followed by reading
`parsed.error?.code` / `parsed.code`): it yields the integer value of the
first `"code"` field of the embedded payload, or none when the payload has
no such field (in which case the source keeps the previous status). -/
def jsonCodeOf (m : String) : Option Int :=
  let pat := "\"code\":".data
  let cs := m.data
  match (List.range cs.length).find? (fun i => matchesAt pat (cs.drop i)) with
  | none => none
  | some i =>
      let after := (cs.drop (i + pat.length)).dropWhile (fun c => c == ' ')
      let ds := after.takeWhile Char.isDigit
      if ds.isEmpty then none else some (Int.ofNat (digitsVal ds))

/-- The status value after the optional refinement from the JSON-looking
message (truthiness: a parsed code of 0 would not overwrite). -/
def transientStatus (e : JsError) : Option Int :=
  let status := jsOrNum e.status e.code
  if msgLooksJson e.message then
    match jsonCodeOf e.message with
    | some c2 => if c2 = 0 then status else some c2
    | none => status
  else status

/-- The `isTransient` classification of retryWithBackoff. -/
def isTransientError (e : JsError) : Bool :=
  let status := transientStatus e
  status == some 503 || status == some 429 || status == some 500 ||
    strContains e.message "overloaded" || strContains e.message "timeout" ||
    strContains e.message "timed out" || strContains e.message "Resource exhausted" ||
    strContains e.message "429"

/-- The for-loop of retryWithBackoff.  `fuel` is the number of iterations
still allowed (`retries - i`), `i` the current attempt index, `lastError`
the accumulator thrown if the loop ever exhausts (`none` models the
undefined initial value).  The returned list is the sequence of backoff
waits (`initialDelay * 2 ** i`) performed between attempts. -/
def retryLoop {α : Type} (op : Nat → Except JsError α) (initialDelay : Nat) :
    Nat → Nat → Option JsError → Except (Option JsError) α × List Nat
  | 0, _, lastError => (Except.error lastError, [])
  | fuel + 1, i, _ =>
      match op i with
      | Except.ok v => (Except.ok v, [])
      | Except.error e =>
          if isTransientError e ∧ fuel ≠ 0 then
            let r := retryLoop op initialDelay fuel (i + 1) (some e)
            (r.1, initialDelay * 2 ^ i :: r.2)
          else (Except.error (some e), [])

/-- retryWithBackoff with an attempt-indexed operation (attempt `i` of the
wrapped async operation resolves to `op i`). -/
def retryWithBackoff {α : Type} (op : Nat → Except JsError α)
    (retries initialDelay : Nat) : Except (Option JsError) α × List Nat :=
  retryLoop op initialDelay retries 0 none

/-- The catch branch of callGemini: the user-facing message substituted for
the error that escaped the retry wrapper. -/
def geminiErrorMessage (e : Option JsError) : String :=
  let message := match e with | some err => err.message | none => ""
  let status := match e with | some err => err.status | none => none
  if strContains message "429" || status == some 429 ||
      strContains message "Resource exhausted" then
    "调用次数超限，AI 法官需要休息一下，请稍后再试"
  else if strContains message "timed out" then
    "网络请求超时，请检查网络后重试"
  else
    "AI 法官正在休庭，请稍后重试"

/-- callGemini (final revision: retries = 5, initialDelay = 1000): wraps the
attempt sequence in retryWithBackoff and converts an escaping error into a
user-facing message.  Each `op i` already includes the 120 s timeout race,
whose rejection surfaces as a "Request timed out" error value. -/
def callGemini (op : Nat → Except JsError String) : Except String String × List Nat :=
  match retryWithBackoff op 5 1000 with
  | (Except.ok t, ws) => (Except.ok t, ws)
  | (Except.error e, ws) => (Except.error (geminiErrorMessage e), ws)

/-! ## Response validator of generateVerdict (src/unnamed/part_000):
responsibilitySplit sanitization -/

/-- A raw JSON value in a responsibilitySplit slot as the sanitizer
classifies it by `typeof`: a number, a string, or anything else
(null, boolean, object, array, or a missing field), which `clean` maps
to 0. -/
inductive RawNum where
  | num (value : ℚ)
  | str (text : String)
  | other
deriving DecidableEq

/-- The stripping step `val.replace(/[^0-9.]/g, '')`: note that a leading
minus sign of a numeric string is stripped along with every other non-digit
character. -/
def stripNonNumeric (s : String) : String :=
  String.mk (s.data.filter fun c => c.isDigit || c == '.')

/-- JavaScript parseFloat on a sign-free digits-and-dots string (the only
shape stripNonNumeric can produce): the longest numeric prefix, or NaN
(modelled as none) when no digit is consumed. -/
def parseFloatNum (s : String) : Option ℚ :=
  let cs := s.data
  let intPart := cs.takeWhile Char.isDigit
  let rest := cs.drop intPart.length
  match rest with
  | '.' :: rest2 =>
      let fracPart := rest2.takeWhile Char.isDigit
      if intPart.isEmpty ∧ fracPart.isEmpty then none
      else some ((digitsVal intPart : ℚ) + (digitsVal fracPart : ℚ) / (10 : ℚ) ^ fracPart.length)
  | _ => if intPart.isEmpty then none else some (digitsVal intPart : ℚ)

/-- The `clean` helper of the sanitizer; `none` models NaN. -/
def cleanSplitValue : RawNum → Option ℚ
  | RawNum.num v => some v
  | RawNum.str t => parseFloatNum (stripNonNumeric t)
  | RawNum.other => some 0

/-- The `clean` helper followed by the `if (isNaN(p)) p = 50` default. -/
def cleanSplitDefault (r : RawNum) : ℚ :=
  (cleanSplitValue r).getD 50

/-- Math.round: round half toward positive infinity. -/
def jsRound (x : ℚ) : ℚ :=
  ((⌊x + 1 / 2⌋ : ℤ) : ℚ)

/-- The responsibilitySplit sanitization of generateVerdict.  The argument
is `parsed.responsibilitySplit`: `none` models a falsy (absent/null) field,
which is replaced by the 50/50 default. -/
def sanitizeResponsibilitySplit : Option (RawNum × RawNum) → ℚ × ℚ
  | none => (50, 50)
  | some (rp, rd) =>
      let p := cleanSplitDefault rp
      let d := cleanSplitDefault rd
      let total := p + d
      if total > 0 ∧ |total - 100| > 1 then
        let p2 := jsRound (p / total * 100)
        (p2, 100 - p2)
      else if total = 0 then (50, 50)
      else (p, d)

/-! ## Response validator of generateVerdict: penaltyTasks sanitization -/

/-- A raw penaltyTasks entry as the sanitizer classifies it: a bare string,
or an object carrying any of the keys it inspects (assignee, content,
description, task). -/
inductive RawTask where
  | str (s : String)
  | obj (assignee content description task : Option String)
deriving DecidableEq

/-- JavaScript `a || b` where `a` is an optional string. -/
def jsOrStr (a : Option String) (b : String) : String :=
  match a with
  | some s => if s = "" then b else s
  | none => b

/-- JSON.stringify of a loose task object, used as the last content
fallback.  The real key order is the insertion order of the model-produced
object, which is not observable here; the model fixes it as
assignee, content, description, task. -/
def stringifyRawTask : RawTask → String
  | RawTask.str s => jsonQuote s
  | RawTask.obj a c d t =>
      let fields :=
        (match a with | some s => ["\"assignee\":" ++ jsonQuote s] | none => []) ++
        (match c with | some s => ["\"content\":" ++ jsonQuote s] | none => []) ++
        (match d with | some s => ["\"description\":" ++ jsonQuote s] | none => []) ++
        (match t with | some s => ["\"task\":" ++ jsonQuote s] | none => [])
      "\x7b" ++ String.intercalate "," fields ++ "\x7d"

/-- The per-entry coercion of the penaltyTasks sanitizer.  `split` is the
already-sanitized responsibilitySplit (the split sanitization runs first
and overwrites `parsed.responsibilitySplit`). -/
def sanitizePenaltyTask (split : ℚ × ℚ) (t : RawTask) : PenaltyTask :=
  match t with
  | RawTask.obj a c d tk =>
      if truthyStr a ∧ truthyStr c then
        { assignee :=
            if strContains (toUpperStr (a.getD "")) "PLAINTIFF" then Party.PLAINTIFF
            else Party.DEFENDANT
          content := c.getD "" }
      else
        let content := jsOrStr d (jsOrStr tk (jsOrStr c (stringifyRawTask (RawTask.obj a c d tk))))
        let isPlaintiff := strContains content "原告" && !(strContains content "被告做")
        { assignee := if isPlaintiff then Party.PLAINTIFF else Party.DEFENDANT
          content := content }
  | RawTask.str s =>
      let loser := if split.2 > split.1 then Party.DEFENDANT else Party.PLAINTIFF
      { assignee := loser, content := s }

/-- The penaltyTasks sanitization: `none` models a falsy field, replaced by
the empty list. -/
def sanitizePenaltyTasks (split : ℚ × ℚ) : Option (List RawTask) → List PenaltyTask
  | none => []
  | some l => l.map (sanitizePenaltyTask split)

/-- The part of the parsed verdict payload the two sanitization passes
read and rewrite. -/
structure RawVerdictPayload where
  responsibilitySplit : Option (RawNum × RawNum)
  penaltyTasks : Option (List RawTask)
deriving DecidableEq

/-- Both sanitization passes in source order: the split is sanitized first
and its result feeds the bare-string fallback of the task coercion. -/
def sanitizeVerdictPayload (raw : RawVerdictPayload) : (ℚ × ℚ) × List PenaltyTask :=
  let split := sanitizeResponsibilitySplit raw.responsibilitySplit
  (split, sanitizePenaltyTasks split raw.penaltyTasks)

/-! # Claim C5 -/

/-- Claim C5: for every locally held case whose stage is DEBATE or later in
the forward stage order, a polled remote read that reports stage
CROSS_EXAMINATION is discarded by the sync reconciliation: syncCaseFromCloud
returns the local copy and leaves the stored db (hence the locally held
stage) unchanged. -/
theorem c5_staleness_guard (db : Db) (caseId : String) (loc : CaseData)
    (remote : RemoteCase) (now : Nat)
    (hloc : dbGet db caseId = some loc)
    (hstage : loc.status = CaseStatus.DEBATE ∨ loc.status = CaseStatus.ADJUDICATING ∨
      loc.status = CaseStatus.CLOSED)
    (hremote : remote.status = CaseStatus.CROSS_EXAMINATION) :
    syncCaseFromCloud db caseId (some remote) now = (some loc, db) := by
  have horder : statusOrder loc.status > statusOrder remote.status := by
    rw [hremote]
    rcases hstage with h | h | h <;> rw [h] <;> decide
  simp only [syncCaseFromCloud, hloc]
  rw [if_pos ⟨horder, hremote⟩]

def c5RemoteRow : RemoteCase :=
  { id := "77", share_code := "XYZXYZ", created_at := 0, plaintiff_id := "alice",
    defendant_id := some "bob", category := "亲密关系纠纷", description := some "d",
    title := none, plaintiff_summary := none, demands := some "dm", evidence := some [],
    defense_statement := some "s", defense_summary := none, defendant_evidence := some [],
    plaintiff_rebuttal := some "", plaintiff_rebuttal_evidence := some [],
    defendant_rebuttal := some "", defendant_rebuttal_evidence := some [],
    dispute_points := some [], judge_persona := some JudgePersona.BORDER_COLLIE,
    status := CaseStatus.CROSS_EXAMINATION, verdict := none }

def c5LocalCase : CaseData :=
  { createCase "77" "XYZXYZ" 0 "alice" with
      status := CaseStatus.DEBATE
      defendantId := some "bob" }

/-- Witness for C5: a local copy in DEBATE keeps its stage when the polled
remote row still reports CROSS_EXAMINATION. -/
theorem c5_witness :
    syncCaseFromCloud [("77", c5LocalCase)] "77" (some c5RemoteRow) 9 =
      (some c5LocalCase, [("77", c5LocalCase)]) :=
  c5_staleness_guard [("77", c5LocalCase)] "77" c5LocalCase c5RemoteRow 9
    (by decide) (Or.inl (by decide)) (by decide)

/-! # Claim C6 -/

/-- Claim C6: from RESPONSE_PENDING (DEFENSE_PENDING), the initiator's
default-judgment action transitions the case to ADJUDICATING in a single
patch that writes the non-participation sentinel into defenseStatement and
defenseSummary and clears the dispute points, and the arguments the
subsequent handleJudgement call passes to generateVerdict carry that
sentinel as the defense input. -/
theorem c6_default_judgment (c : CaseData) (now : Nat) (persona : JudgePersona)
    (_hs : c.status = CaseStatus.DEFENSE_PENDING) :
    (mergeCase c defaultJudgmentPatch now).status = CaseStatus.ADJUDICATING ∧
    (mergeCase c defaultJudgmentPatch now).defenseStatement = absentSentence ∧
    (mergeCase c defaultJudgmentPatch now).defenseSummary = some absentSummary ∧
    (mergeCase c defaultJudgmentPatch now).disputePoints = [] ∧
    (handleJudgementArgs (mergeCase c defaultJudgmentPatch now) persona).defenseDesc =
      absentSentence := by
  refine ⟨rfl, rfl, rfl, rfl, rfl⟩

def c6PendingCase : CaseData :=
  { createCase "5" "JOINME" 0 "alice" with status := CaseStatus.DEFENSE_PENDING }

/-- Witness for C6 at a concrete DEFENSE_PENDING case. -/
theorem c6_witness :
    (mergeCase c6PendingCase defaultJudgmentPatch 3).status = CaseStatus.ADJUDICATING ∧
    (mergeCase c6PendingCase defaultJudgmentPatch 3).defenseStatement = absentSentence ∧
    (mergeCase c6PendingCase defaultJudgmentPatch 3).defenseSummary = some absentSummary ∧
    (mergeCase c6PendingCase defaultJudgmentPatch 3).disputePoints = [] ∧
    (handleJudgementArgs (mergeCase c6PendingCase defaultJudgmentPatch 3)
      JudgePersona.BORDER_COLLIE).defenseDesc = absentSentence :=
  c6_default_judgment c6PendingCase 3 JudgePersona.BORDER_COLLIE (by decide)

/-! # Claim C8 -/

/-- Claim C8: when a load-bearing AI operation fails, the error is surfaced
(the cross-examination handler ends in its failed branch carrying the error
message; the judgement handler produces no patch), and no patch is applied,
so the case's stage and content are unchanged and the same transition can be
retried. -/
theorem c8_failure_leaves_case_unchanged (data : CaseData) (e : String)
    (persona : JudgePersona) (now : Nat)
    (hnoskip : ¬(data.disputePoints ≠ [] ∧
      data.lastAnalyzedHash = some (computeContentHash data))) :
    handleFinishCrossExam data (Except.error e) = CrossExamOutcome.failed e ∧
    outcomePatch (handleFinishCrossExam data (Except.error e)) = none ∧
    applyOutcome data (outcomePatch (handleFinishCrossExam data (Except.error e))) now = data ∧
    handleJudgement persona (Except.error e) = none ∧
    applyOutcome data (handleJudgement persona (Except.error e)) now = data := by
  have h1 : handleFinishCrossExam data (Except.error e) = CrossExamOutcome.failed e := by
    simp only [handleFinishCrossExam, if_neg hnoskip]
  refine ⟨h1, ?_, ?_, rfl, rfl⟩
  · rw [h1]; rfl
  · rw [h1]; rfl

def c8Case : CaseData :=
  { createCase "8" "ERRERR" 0 "alice" with status := CaseStatus.CROSS_EXAMINATION }

/-- Witness for C8 at a concrete case with no prior dispute points. -/
theorem c8_witness :
    handleFinishCrossExam c8Case (Except.error "AI 法官正在休庭，请稍后重试") =
      CrossExamOutcome.failed "AI 法官正在休庭，请稍后重试" ∧
    applyOutcome c8Case
      (outcomePatch (handleFinishCrossExam c8Case
        (Except.error "AI 法官正在休庭，请稍后重试"))) 7 = c8Case := by
  have h := c8_failure_leaves_case_unchanged c8Case "AI 法官正在休庭，请稍后重试"
    JudgePersona.CAT 7 (by decide)
  exact ⟨h.1, h.2.2.1⟩

/-! # Claim C7 -/

/-- Claim C7: the penaltyTasks validator coerces every raw entry into the
canonical shape: a correctly-keyed object keeps its content and has its
assignee normalized to PLAINTIFF or DEFENDANT by the uppercase
"PLAINTIFF"-substring test; a loosely-keyed object draws its content from
the description/task/content fallback chain and infers the assignee from
the textual cues (mentions the plaintiff but not a task done by the
defendant); a bare string is assigned to the side holding the larger
responsibility share. -/
theorem c7_penalty_task_coercion (split : ℚ × ℚ) (a c d tk : Option String)
    (ds s : String) :
    (truthyStr a = true → truthyStr c = true →
      sanitizePenaltyTask split (RawTask.obj a c d tk) =
        { assignee :=
            if strContains (toUpperStr (a.getD "")) "PLAINTIFF" then Party.PLAINTIFF
            else Party.DEFENDANT
          content := c.getD "" }) ∧
    (truthyStr a = false → ds ≠ "" →
      sanitizePenaltyTask split (RawTask.obj a c (some ds) tk) =
        { assignee :=
            if strContains ds "原告" && !(strContains ds "被告做") then Party.PLAINTIFF
            else Party.DEFENDANT
          content := ds }) ∧
    (split.1 > split.2 →
      sanitizePenaltyTask split (RawTask.str s) =
        { assignee := Party.PLAINTIFF, content := s }) ∧
    (split.2 > split.1 →
      sanitizePenaltyTask split (RawTask.str s) =
        { assignee := Party.DEFENDANT, content := s }) := by
  refine ⟨?_, ?_, ?_, ?_⟩
  · intro ha hc
    simp only [sanitizePenaltyTask, ha, hc]
    simp
  · intro ha hds
    simp only [sanitizePenaltyTask, ha]
    simp [jsOrStr, hds]
  · intro h
    have hnot : ¬ split.2 > split.1 := not_lt.mpr (le_of_lt h)
    simp only [sanitizePenaltyTask, if_neg hnot]
  · intro h
    simp only [sanitizePenaltyTask, if_pos h]

private lemma c7SplitGt : (60 : ℚ) > 40 := by norm_num

/-- Witness for C7, the spec's own example: a bare "do the dishes" with a
60/40 split is assigned to the plaintiff, the side with the larger share. -/
theorem c7_witness :
    sanitizePenaltyTask (60, 40) (RawTask.str "do the dishes") =
      { assignee := Party.PLAINTIFF, content := "do the dishes" } :=
  (c7_penalty_task_coercion (60, 40) none none none none "" "do the dishes").2.2.1 c7SplitGt

/-! # Claim C9 -/

/-- A single step of the retry loop, by definition. -/
theorem retryLoop_succ {α : Type} (op : Nat → Except JsError α) (d fuel i : Nat)
    (last : Option JsError) :
    retryLoop op d (fuel + 1) i last =
      match op i with
      | Except.ok v => (Except.ok v, [])
      | Except.error e =>
          if isTransientError e ∧ fuel ≠ 0 then
            ((retryLoop op d fuel (i + 1) (some e)).1,
              d * 2 ^ i :: (retryLoop op d fuel (i + 1) (some e)).2)
          else (Except.error (some e), []) := by
  rw [retryLoop]

theorem retryLoop_waits_le {α : Type} (op : Nat → Except JsError α) (d : Nat) :
    ∀ (fuel i : Nat) (last : Option JsError),
      (retryLoop op d fuel i last).2.length ≤ fuel - 1 := by
  intro fuel
  induction fuel with
  | zero => intro i last; simp [retryLoop]
  | succ n ih =>
      intro i last
      rw [retryLoop_succ]
      cases hop : op i with
      | ok v => simp
      | error e =>
          by_cases hc : isTransientError e ∧ n ≠ 0
          · simp only [if_pos hc, List.length_cons]
            have h1 := ih (i + 1) (some e)
            omega
          · simp [if_neg hc]

/-- Claim C9: a gateway call whose underlying operation fails with a
transient error on the first two attempts and succeeds on the third returns
the successful result with no error surfaced, having waited
initialDelay * 2 ^ attempt (1000 ms, then 2000 ms) between attempts; a
non-transient first failure is thrown immediately with no backoff wait; and
the number of attempts (waits + 1) never exceeds the retry bound of 5. -/
theorem c9_retry_backoff (op : Nat → Except JsError String) (e0 e1 : JsError)
    (v : String) :
    (op 0 = Except.error e0 → isTransientError e0 = true →
     op 1 = Except.error e1 → isTransientError e1 = true →
     op 2 = Except.ok v →
      retryWithBackoff op 5 1000 = (Except.ok v, [1000, 2000]) ∧
      callGemini op = (Except.ok v, [1000, 2000])) ∧
    (∀ e : JsError, op 0 = Except.error e → isTransientError e = false →
      retryWithBackoff op 5 1000 = (Except.error (some e), []) ∧
      callGemini op = (Except.error (geminiErrorMessage (some e)), [])) ∧
    (retryWithBackoff op 5 1000).2.length + 1 ≤ 5 := by
  refine ⟨?_, ?_, ?_⟩
  · intro h0 ht0 h1 ht1 h2
    have hloop : retryLoop op 1000 5 0 none = (Except.ok v, [1000, 2000]) := by
      rw [show (5 : Nat) = 4 + 1 from rfl, retryLoop_succ, h0]
      simp only [ht0]
      rw [show (4 : Nat) = 3 + 1 from rfl, retryLoop_succ, h1]
      simp only [ht1]
      rw [show (3 : Nat) = 2 + 1 from rfl, retryLoop_succ, h2]
      norm_num
    have hr : retryWithBackoff op 5 1000 = (Except.ok v, [1000, 2000]) := hloop
    refine ⟨hr, ?_⟩
    simp only [callGemini, hr]
  · intro e h0 ht0
    have hloop : retryLoop op 1000 5 0 none = (Except.error (some e), []) := by
      rw [show (5 : Nat) = 4 + 1 from rfl, retryLoop_succ, h0]
      simp [ht0]
    have hr : retryWithBackoff op 5 1000 = (Except.error (some e), []) := hloop
    refine ⟨hr, ?_⟩
    simp only [callGemini, hr]
  · have h := retryLoop_waits_le op 1000 5 0 none
    have h2 : (retryWithBackoff op 5 1000).2.length ≤ 4 := h
    omega

def c9TransientErr : JsError :=
  { status := some 503, code := none, message := "Service Unavailable" }

def c9Op : Nat → Except JsError String := fun n =>
  if n = 0 then Except.error c9TransientErr
  else if n = 1 then Except.error c9TransientErr
  else Except.ok "verdict text"

/-- Witness for C9: two 503 failures followed by a success yield the
successful result after backoff waits of 1000 and 2000 ms. -/
theorem c9_witness :
    retryWithBackoff c9Op 5 1000 = (Except.ok "verdict text", [1000, 2000]) ∧
    callGemini c9Op = (Except.ok "verdict text", [1000, 2000]) :=
  (c9_retry_backoff c9Op c9TransientErr c9TransientErr "verdict text").1
    rfl (by decide) rfl (by decide) rfl

/-! # Claim C2 -/

/-- Claim C2 (amended): the update path performs no permission check at all.
For every existing case, MockDb.updateCase applies the submitted patch —
whoever the submitting actor is — and returns it merged; its only failure is
"Case not found" for a missing id.  Role gating exists only in the UI layer,
which renders non-designated actors a read-only waiting view without the
advancing control. -/
theorem c2_update_applies_any_patch (db : Db) (id : String) (p : Patch) (now : Nat) :
    (∀ c : CaseData, dbGet db id = some c →
      updateCase db id p now =
        Except.ok (mergeCase c p now, dbSet db id (mergeCase c p now))) ∧
    (dbGet db id = none → updateCase db id p now = Except.error "Case not found") := by
  constructor
  · intro c hc
    simp only [updateCase, hc]
  · intro hc
    simp only [updateCase, hc]

def c2Case : CaseData :=
  { createCase "1" "C0DEC0" 0 "alice" with
      status := CaseStatus.DEFENSE_PENDING
      defendantId := some "bob" }

def c2Db : Db := [("1", c2Case)]

def c2Patch : Patch := defenseSubmitPatch "945 字的答辩"

/-- Counterexample to C2 as stated: at stage DEFENSE_PENDING the designated
actor is the respondent, yet the defense-submitting advancing action issued
from the session of "carol" — a SPECTATOR, not the designated actor —
does not fail with a permission error: updateCase (which never sees an
actor) succeeds and advances the stage to CROSS_EXAMINATION. -/
theorem c2_counterexample :
    roleFor "carol" c2Case = UserRole.SPECTATOR ∧
    c2Case.status = CaseStatus.DEFENSE_PENDING ∧
    updateCase c2Db "1" c2Patch 5 =
      Except.ok (mergeCase c2Case c2Patch 5, dbSet c2Db "1" (mergeCase c2Case c2Patch 5)) ∧
    (mergeCase c2Case c2Patch 5).status = CaseStatus.CROSS_EXAMINATION ∧
    (mergeCase c2Case c2Patch 5).status ≠ c2Case.status := by
  refine ⟨by decide, rfl, ?_, rfl, by decide⟩
  simp only [updateCase]
  rfl

def c2MissingDb : Db := []

/-- Witness for the amended C2 at concrete inputs: an existing case accepts
any patch, a missing id is the sole rejection. -/
theorem c2_witness :
    updateCase c2Db "1" c2Patch 9 =
      Except.ok (mergeCase c2Case c2Patch 9, dbSet c2Db "1" (mergeCase c2Case c2Patch 9)) ∧
    updateCase c2MissingDb "1" c2Patch 9 = Except.error "Case not found" :=
  ⟨(c2_update_applies_any_patch c2Db "1" c2Patch 9).1 c2Case rfl,
    (c2_update_applies_any_patch c2MissingDb "1" c2Patch 9).2 rfl⟩

/-! # Claim C3 -/

/-- Rounding a rational in [0, upper] stays in [0, upper] for the
Math.round model. -/
theorem jsRound_nonneg {x : ℚ} (hx : 0 ≤ x) : 0 ≤ jsRound x := by
  unfold jsRound
  have h : (0 : ℤ) ≤ ⌊x + 1 / 2⌋ := by
    apply Int.le_floor.mpr
    push_cast
    linarith
  exact_mod_cast h

theorem jsRound_le_100 {x : ℚ} (hx : x ≤ 100) : jsRound x ≤ 100 := by
  unfold jsRound
  have h1 : ⌊x + 1 / 2⌋ ≤ ⌊(100 : ℚ) + 1 / 2⌋ := Int.floor_le_floor (by linarith)
  have h2 : ⌊(100 : ℚ) + 1 / 2⌋ = 100 := by norm_num
  have h3 : ⌊x + 1 / 2⌋ ≤ (100 : ℤ) := by omega
  exact_mod_cast h3

/-- Claim C3 (amended): the responsibility-split validator defaults to 50/50
when the field is absent, when both cleaned values are unparseable
(NaN defaults to 50 each), or when the cleaned sum is zero; when the cleaned
sum is positive and deviates from 100 by more than 1 it renormalizes
proportionally with rounding, producing values that sum to exactly 100 and
are non-negative whenever the cleaned inputs are; in every other case — a
cleaned sum within the ±1 tolerance of 100, or a negative sum — the cleaned
values pass through unchanged, so the outputs need not sum to 100 exactly
and a negative value can survive. -/
theorem c3_split_normalization (rp rd : RawNum) :
    (cleanSplitDefault rp + cleanSplitDefault rd = 0 →
      sanitizeResponsibilitySplit (some (rp, rd)) = (50, 50)) ∧
    (0 < cleanSplitDefault rp + cleanSplitDefault rd →
     1 < |cleanSplitDefault rp + cleanSplitDefault rd - 100| →
      (sanitizeResponsibilitySplit (some (rp, rd))).1 +
        (sanitizeResponsibilitySplit (some (rp, rd))).2 = 100 ∧
      (0 ≤ cleanSplitDefault rp → 0 ≤ cleanSplitDefault rd →
        0 ≤ (sanitizeResponsibilitySplit (some (rp, rd))).1 ∧
        0 ≤ (sanitizeResponsibilitySplit (some (rp, rd))).2)) ∧
    (¬(0 < cleanSplitDefault rp + cleanSplitDefault rd ∧
        1 < |cleanSplitDefault rp + cleanSplitDefault rd - 100|) →
      cleanSplitDefault rp + cleanSplitDefault rd ≠ 0 →
      sanitizeResponsibilitySplit (some (rp, rd)) =
        (cleanSplitDefault rp, cleanSplitDefault rd)) ∧
    sanitizeResponsibilitySplit none = (50, 50) := by
  set p := cleanSplitDefault rp with hp
  set d := cleanSplitDefault rd with hd
  have hdef : sanitizeResponsibilitySplit (some (rp, rd)) =
      if 0 < p + d ∧ 1 < |p + d - 100| then
        (jsRound (p / (p + d) * 100), 100 - jsRound (p / (p + d) * 100))
      else if p + d = 0 then (50, 50) else (p, d) := by
    simp only [sanitizeResponsibilitySplit, ← hp, ← hd]
  refine ⟨?_, ?_, ?_, rfl⟩
  · intro h0
    rw [hdef, if_neg (by rw [h0]; simp), if_pos h0]
  · intro hpos hdev
    rw [hdef, if_pos ⟨hpos, hdev⟩]
    constructor
    · ring
    · intro hpn hdn
      have hle : p / (p + d) * 100 ≤ 100 := by
        have h1 : p / (p + d) ≤ 1 := (div_le_one hpos).mpr (by linarith)
        nlinarith
      have hge : 0 ≤ p / (p + d) * 100 := by positivity
      have hub := jsRound_le_100 hle
      have hlb := jsRound_nonneg hge
      constructor
      · exact hlb
      · simp only
        linarith
  · intro hnc hne
    rw [hdef, if_neg hnc, if_neg hne]

/-- Counterexample to C3 as stated: the raw input
responsibilitySplit = \x7b plaintiff: -50, defendant: 150 \x7d has cleaned sum
100, so the validator passes both values through: the output plaintiff share
is negative.  And 49.5/49.5 has sum 99, inside the ±1 tolerance, so the
output sum is 99, not exactly 100. -/
theorem c3_counterexample :
    sanitizeResponsibilitySplit (some (RawNum.num (-50), RawNum.num 150)) = (-50, 150) ∧
    (sanitizeResponsibilitySplit (some (RawNum.num (-50), RawNum.num 150))).1 < 0 ∧
    sanitizeResponsibilitySplit (some (RawNum.num (99 / 2), RawNum.num (99 / 2))) =
      (99 / 2, 99 / 2) ∧
    (sanitizeResponsibilitySplit (some (RawNum.num (99 / 2), RawNum.num (99 / 2)))).1 +
      (sanitizeResponsibilitySplit (some (RawNum.num (99 / 2), RawNum.num (99 / 2)))).2 ≠
        100 := by
  have h1 : sanitizeResponsibilitySplit (some (RawNum.num (-50), RawNum.num 150)) =
      (-50, 150) := by
    norm_num [sanitizeResponsibilitySplit, cleanSplitDefault, cleanSplitValue]
  have h2 : sanitizeResponsibilitySplit (some (RawNum.num (99 / 2), RawNum.num (99 / 2))) =
      (99 / 2, 99 / 2) := by
    norm_num [sanitizeResponsibilitySplit, cleanSplitDefault, cleanSplitValue]
  refine ⟨h1, ?_, h2, ?_⟩
  · rw [h1]; norm_num
  · rw [h2]; norm_num

private lemma c3AuxPos :
    (0 : ℚ) < cleanSplitDefault (RawNum.num 70) + cleanSplitDefault (RawNum.num 60) := by
  norm_num [cleanSplitDefault, cleanSplitValue]

private lemma c3AuxDev :
    (1 : ℚ) < |cleanSplitDefault (RawNum.num 70) + cleanSplitDefault (RawNum.num 60) - 100| := by
  norm_num [cleanSplitDefault, cleanSplitValue]

private lemma c3AuxP : (0 : ℚ) ≤ cleanSplitDefault (RawNum.num 70) := by
  norm_num [cleanSplitDefault, cleanSplitValue]

private lemma c3AuxD : (0 : ℚ) ≤ cleanSplitDefault (RawNum.num 60) := by
  norm_num [cleanSplitDefault, cleanSplitValue]

/-- Witness for the amended C3: the raw split 70/60 deviates by more than
the tolerance, so the renormalized outputs are non-negative and sum to
exactly 100. -/
theorem c3_witness :
    (sanitizeResponsibilitySplit (some (RawNum.num 70, RawNum.num 60))).1 +
      (sanitizeResponsibilitySplit (some (RawNum.num 70, RawNum.num 60))).2 = 100 ∧
    0 ≤ (sanitizeResponsibilitySplit (some (RawNum.num 70, RawNum.num 60))).1 ∧
    0 ≤ (sanitizeResponsibilitySplit (some (RawNum.num 70, RawNum.num 60))).2 := by
  have h := (c3_split_normalization (RawNum.num 70) (RawNum.num 60)).2.1 c3AuxPos c3AuxDev
  exact ⟨h.1, (h.2 c3AuxP c3AuxD).1, (h.2 c3AuxP c3AuxD).2⟩

/-! # Claim C4 -/

/-- Claim C4 (amended): when a case already holds a non-empty DisputePoint
set and the stored fingerprint equals the fingerprint of the current
content, finish-cross-examination performs no AI inference call and submits
only the status patch to DEBATE, leaving the DisputePoint set (and the
in-progress arguments it contains) untouched; when the fingerprints differ
the AI is invoked and the new points and fingerprint are stored.  A change
to a fingerprinted field regenerates only if it changes the fingerprint
string: the evidence fingerprint concatenates id, description and contested
flag with unescaped separators, so distinct evidence sets can collide and
wrongly reuse the stored points (see the counterexample). -/
theorem c4_fingerprint_reuse :
    (∀ (data : CaseData) (pt : DisputePoint) (pts : List DisputePoint)
        (ai : Except String (List DisputePoint)) (now : Nat),
      data.disputePoints = pt :: pts →
      data.lastAnalyzedHash = some (computeContentHash data) →
        handleFinishCrossExam data ai = CrossExamOutcome.skip crossExamSkipPatch ∧
        invokesAI (handleFinishCrossExam data ai) = false ∧
        (mergeCase data crossExamSkipPatch now).status = CaseStatus.DEBATE ∧
        (mergeCase data crossExamSkipPatch now).disputePoints = data.disputePoints ∧
        (mergeCase data crossExamSkipPatch now).evidence = data.evidence ∧
        (mergeCase data crossExamSkipPatch now).defenseStatement = data.defenseStatement) ∧
    (∀ (data : CaseData) (points : List DisputePoint),
      data.lastAnalyzedHash ≠ some (computeContentHash data) →
        handleFinishCrossExam data (Except.ok points) =
          CrossExamOutcome.generated (crossExamGenPatch points (computeContentHash data)) ∧
        invokesAI (handleFinishCrossExam data (Except.ok points)) = true) := by
  constructor
  · intro data pt pts ai now hdp hhash
    have hcond : data.disputePoints ≠ [] ∧
        data.lastAnalyzedHash = some (computeContentHash data) := by
      rw [hdp]
      exact ⟨List.cons_ne_nil pt pts, hhash⟩
    have hskip : handleFinishCrossExam data ai = CrossExamOutcome.skip crossExamSkipPatch := by
      simp only [handleFinishCrossExam, if_pos hcond]
    refine ⟨hskip, ?_, rfl, rfl, rfl, rfl⟩
    rw [hskip]
    rfl
  · intro data points hhash
    have hcond : ¬(data.disputePoints ≠ [] ∧
        data.lastAnalyzedHash = some (computeContentHash data)) := by
      intro hc
      exact hhash hc.2
    have hgen : handleFinishCrossExam data (Except.ok points) =
        CrossExamOutcome.generated (crossExamGenPatch points (computeContentHash data)) := by
      simp only [handleFinishCrossExam, if_neg hcond]
    refine ⟨hgen, ?_⟩
    rw [hgen]
    rfl

def c4EvidenceOld : List EvidenceItem :=
  [{ id := "1-x", type := EvidenceType.TEXT, content := "chat log",
     description := some "y", isContested := false, submittedBy := UserRole.PLAINTIFF }]

def c4EvidenceNew : List EvidenceItem :=
  [{ id := "1", type := EvidenceType.TEXT, content := "chat log",
     description := some "x-y", isContested := false, submittedBy := UserRole.PLAINTIFF }]

def c4Point : DisputePoint :=
  { id := "focus-0-1", title := "迟到", description := "迟到是否应当道歉？",
    plaintiffArg := some "应当", defendantArg := none }

/-- The case whose content was fingerprinted at the last generation. -/
def c4FingerprintedCase : CaseData :=
  { createCase "4" "HASHED" 0 "alice" with
      status := CaseStatus.CROSS_EXAMINATION
      evidence := c4EvidenceOld }

/-- The same case after its evidence was changed, still holding the
fingerprint taken over the old evidence. -/
def c4ChangedCase : CaseData :=
  { c4FingerprintedCase with
      evidence := c4EvidenceNew
      disputePoints := [c4Point]
      lastAnalyzedHash := some (computeContentHash c4FingerprintedCase) }

/-- Counterexample to C4 as stated: the evidence — a fingerprinted field —
changed since the last generation (id "1-x" / description "y" became id "1" /
description "x-y"), yet both contents fingerprint to the same string, so the
second invocation performs no regeneration: it skips straight to DEBATE with
the stale DisputePoint set. -/
theorem c4_counterexample :
    c4ChangedCase.evidence ≠ c4FingerprintedCase.evidence ∧
    computeContentHash c4ChangedCase = computeContentHash c4FingerprintedCase ∧
    handleFinishCrossExam c4ChangedCase
      (Except.ok [{ id := "fresh", title := "t", description := "d" }]) =
      CrossExamOutcome.skip crossExamSkipPatch ∧
    invokesAI (handleFinishCrossExam c4ChangedCase
      (Except.ok [{ id := "fresh", title := "t", description := "d" }])) = false := by
  refine ⟨by decide, by decide, ?_, ?_⟩ <;> decide

/-- Witness for the amended C4 at concrete inputs: with matching
fingerprint the handler skips (no AI call) and preserves the points; with a
cleared fingerprint it regenerates. -/
theorem c4_witness :
    handleFinishCrossExam c4ChangedCase (Except.error "unused") =
      CrossExamOutcome.skip crossExamSkipPatch ∧
    invokesAI (handleFinishCrossExam c4ChangedCase (Except.error "unused")) = false ∧
    (mergeCase c4ChangedCase crossExamSkipPatch 8).disputePoints = [c4Point] ∧
    handleFinishCrossExam { c4ChangedCase with lastAnalyzedHash := none }
      (Except.ok [c4Point]) =
      CrossExamOutcome.generated (crossExamGenPatch [c4Point]
        (computeContentHash { c4ChangedCase with lastAnalyzedHash := none })) := by
  have h1 := (c4_fingerprint_reuse.1 c4ChangedCase c4Point [] (Except.error "unused") 8
    (by decide) (by decide))
  have h2 := (c4_fingerprint_reuse.2 { c4ChangedCase with lastAnalyzedHash := none }
    [c4Point] (by decide))
  exact ⟨h1.1, h1.2.1, by rw [h1.2.2.2.1]; decide, h2.1⟩

/-! # Claim C1 -/

/-- Claim C1 (amended): in every reachable case a CLOSED stage guarantees a
verdict is present, and the judgement operation — the only operation that
writes a verdict — always sets the stage to CLOSED in the same patch.  The
converse direction of the original claim fails: the appeal (and step-back)
paths move the stage away from CLOSED without clearing the verdict field,
so a non-null verdict does not imply stage CLOSED (see the
counterexample). -/
theorem c1_closed_stage_has_verdict :
    (∀ c : CaseData, Reachable c → c.status = CaseStatus.CLOSED → c.verdict ≠ none) ∧
    (∀ (c : CaseData) (v : Verdict) (persona : JudgePersona) (now : Nat),
      (mergeCase c (judgementPatch v persona) now).status = CaseStatus.CLOSED ∧
      (mergeCase c (judgementPatch v persona) now).verdict = some v) := by
  constructor
  · intro c h
    induction h <;> intro hcl <;>
      simp_all [mergeCase, createCase, filingSubmitPatch, filingBackgroundPatch,
        plaintiffEvidencePatch, plaintiffEvidenceSubmitPatch, defenseSubmitPatch,
        defenseSummaryPatch, defendantEvidencePatch, plaintiffRebuttalPatch,
        defendantRebuttalPatch, crossExamSkipPatch, crossExamGenPatch, debateArgsPatch,
        debateProceedPatch, judgementPatch, defaultJudgmentPatch, clearDefaultPatch]
  · intro c v persona now
    exact ⟨rfl, rfl⟩

def c1Verdict : Verdict :=
  { summary := "案件摘要", facts := ["迟到两小时"],
    responsibilitySplit := { plaintiff := 30, defendant := 70 },
    reasoning := "被告存在过错", finalJudgment := "本喵裁判：1. 【支持】 关于道歉的诉请……",
    penaltyTasks := [{ assignee := Party.DEFENDANT, content := "彩虹屁挑战" }],
    tone := "温和" }

def c1Drafting : CaseData := createCase "11" "AAAAAA" 0 "alice"
def c1Filed : CaseData := mergeCase c1Drafting (filingSubmitPatch "他迟到了" "要求道歉") 1
def c1Pending : CaseData := mergeCase c1Filed plaintiffEvidenceSubmitPatch 2
def c1Defaulted : CaseData := mergeCase c1Pending defaultJudgmentPatch 3
def c1Closed : CaseData := mergeCase c1Defaulted (judgementPatch c1Verdict JudgePersona.CAT) 4
def c1Appealed : CaseData := mergeCase c1Closed clearDefaultPatch 5

/-- The reachability chain behind the C1 counterexample and witness:
create, file, submit evidence, default judgment, adjudicate. -/
theorem c1Closed_reachable : Reachable c1Closed :=
  Reachable.judgement
    (Reachable.defaultJudgment
      (Reachable.plaintiffEvidenceSubmit
        (Reachable.filingSubmit (Reachable.created "11" "AAAAAA" 0 "alice") rfl
          "他迟到了" "要求道歉" 1)
        rfl 2)
      rfl 3)
    rfl c1Verdict JudgePersona.CAT 4

/-- Counterexample to C1 as stated: after an appeal from CLOSED (here the
default-judgment appeal path, whose patch rewrites only status and the
defense fields), the reachable case sits in DEFENSE_PENDING while its
verdict field still holds the old verdict — stage ≠ CLOSED yet
verdict ≠ null, refuting the iff. -/
theorem c1_counterexample :
    Reachable c1Appealed ∧
    appealPatch c1Closed = clearDefaultPatch ∧
    c1Appealed.status = CaseStatus.DEFENSE_PENDING ∧
    c1Appealed.verdict = some c1Verdict := by
  refine ⟨?_, by decide, rfl, rfl⟩
  exact Reachable.appealDefaulted c1Closed_reachable rfl rfl 5

/-- Witness for the amended C1: the concrete reachable CLOSED case carries
a verdict. -/
theorem c1_witness : c1Closed.status = CaseStatus.CLOSED ∧ c1Closed.verdict ≠ none :=
  ⟨rfl, c1_closed_stage_has_verdict.1 c1Closed c1Closed_reachable rfl⟩

/-! # Claim C10 -/

/-- Claim C10: joinCase rejects a join by the case's own plaintiff, rejects
a join when a different (non-empty) defendant identity is already bound —
both leaving the db unchanged — and accepts a re-join by the already-bound
defendant without changing the binding; consequently in every reachable
case the bound defendant identity differs from the plaintiff identity. -/
theorem c10_join_identity_checks :
    (∀ (db : Db) (code d : String) (now : Nat) (c : CaseData),
      findCaseByCode db code = some c → c.plaintiffId = d →
        joinCase db code d now =
          ({ success := false, error := some "您是原告，无法作为被告加入" }, db)) ∧
    (∀ (db : Db) (code d d0 : String) (now : Nat) (c : CaseData),
      findCaseByCode db code = some c → c.plaintiffId ≠ d →
      c.defendantId = some d0 → d0 ≠ "" → d0 ≠ d →
        joinCase db code d now =
          ({ success := false, error := some "该案件已有被告" }, db)) ∧
    (∀ (db : Db) (code d : String) (now : Nat) (c : CaseData),
      findCaseByCode db code = some c → c.plaintiffId ≠ d → c.defendantId = some d →
        (joinCase db code d now).1.success = true ∧
        (joinCase db code d now).2 =
          dbSet db c.id { c with defendantId := some d, lastUpdateDate := now } ∧
        ({ c with defendantId := some d, lastUpdateDate := now } : CaseData).defendantId =
          c.defendantId) ∧
    (∀ c : CaseData, Reachable c → ∀ d : String, c.defendantId = some d →
      d ≠ c.plaintiffId) := by
  refine ⟨?_, ?_, ?_, ?_⟩
  · intro db code d now c hfind hpid
    simp [joinCase, hfind, hpid]
  · intro db code d d0 now c hfind hpid hdef hd0 hne
    simp [joinCase, hfind, hpid, hdef, truthyStr, hd0, hne]
  · intro db code d now c hfind hpid hdef
    simp [joinCase, hfind, hpid, hdef, truthyStr]
  · intro c h
    induction h with
    | join h d now hne hfree ih =>
        intro d0 hd0
        have hdd : d = d0 := by simpa using hd0
        subst hdd
        simpa using fun hEq => hne hEq.symm
    | _ =>
        first
        | (intro d0 hd0; simp [createCase] at hd0)
        | (intro d0 hd0
           apply_assumption
           simpa [mergeCase, filingSubmitPatch, filingBackgroundPatch,
             plaintiffEvidencePatch, plaintiffEvidenceSubmitPatch, defenseSubmitPatch,
             defenseSummaryPatch, defendantEvidencePatch, plaintiffRebuttalPatch,
             defendantRebuttalPatch, crossExamSkipPatch, crossExamGenPatch,
             debateArgsPatch, debateProceedPatch, judgementPatch, defaultJudgmentPatch,
             clearDefaultPatch] using hd0)

def c10Case : CaseData := createCase "10" "JOINAA" 0 "alice"
def c10Db : Db := [("10", c10Case)]
def c10BoundCase : CaseData := { c10Case with defendantId := some "bob" }
def c10BoundDb : Db := [("10", c10BoundCase)]

/-- Witness for C10 at concrete inputs: the plaintiff cannot join their own
case; a third identity cannot displace the bound defendant; the bound
defendant re-joins successfully without changing the binding; and a
reachable bound case separates the two identities. -/
theorem c10_witness :
    joinCase c10Db "JOINAA" "alice" 1 =
      ({ success := false, error := some "您是原告，无法作为被告加入" }, c10Db) ∧
    joinCase c10BoundDb "JOINAA" "carol" 2 =
      ({ success := false, error := some "该案件已有被告" }, c10BoundDb) ∧
    (joinCase c10BoundDb "JOINAA" "bob" 3).1.success = true ∧
    (joinCase c10BoundDb "JOINAA" "bob" 3).2 =
      dbSet c10BoundDb "10" { c10BoundCase with defendantId := some "bob", lastUpdateDate := 3 } ∧
    "bob" ≠ ({ c10Case with defendantId := some "bob", lastUpdateDate := 4 } : CaseData).plaintiffId := by
  have h1 := c10_join_identity_checks.1 c10Db "JOINAA" "alice" 1 c10Case (by decide) rfl
  have h2 := c10_join_identity_checks.2.1 c10BoundDb "JOINAA" "carol" "bob" 2 c10BoundCase
    (by decide) (by decide) rfl (by decide) (by decide)
  have h3 := c10_join_identity_checks.2.2.1 c10BoundDb "JOINAA" "bob" 3 c10BoundCase
    (by decide) (by decide) rfl
  have h4 := c10_join_identity_checks.2.2.2
    ({ c10Case with defendantId := some "bob", lastUpdateDate := 4 } : CaseData)
    (Reachable.join (Reachable.created "10" "JOINAA" 0 "alice") "bob" 4 (by decide)
      (Or.inl (by decide)))
    "bob" rfl
  exact ⟨h1, h2, h3.1, h3.2.1, h4⟩

end Liqingai
